import Mathlib

/-
Verification development for the opi-evpn-bridge control-plane core.

The Go source is embedded shallowly: pure data is mirrored by Lean
structures, Go pointers to structures are flattened to the structures
themselves (with the Go zero value as the empty object), Go maps are
association lists, and external effects (the badger store, the eventbus,
the FRR process) are threaded explicitly as state or supplied as oracle
parameters.  Go time.Duration timers are only ever whole seconds in this
code, so they are modelled in seconds as naturals.
-/

/-- Status of one component of an object's status vector, mirroring the
constants ComponentStatusUnspecified / Pending / Success / Error of the
infradb common package (the Go zero value is Unspecified). -/
inductive ComponentStatus
  | Unspecified
  | Pending
  | Success
  | Error
  deriving DecidableEq, Repr

/-- Modelled from the spec: the common.Component structure of package
pkg/infradb/common is not under src.  The spec (section 3) describes the
component status vector entries as having fields Name, CompStatus, Details
and Timer, and the source uses exactly these four fields.  Timer is a Go
time.Duration that the source only ever sets to whole seconds, so it is
modelled in seconds. -/
structure Component where
  Name : String
  CompStatus : ComponentStatus
  Details : String
  Timer : Nat
  deriving DecidableEq, Repr

/-- Go zero value of common.Component (a plain `var comp common.Component`). -/
def zeroComponent : Component :=
  { Name := "", CompStatus := ComponentStatus.Unspecified, Details := "", Timer := 0 }

/-- Modelled from the spec: eventbus.Subscriber of the subscriber framework
is not under src; the spec (section 4.2) registers subscribers with a Name
and a Priority. -/
structure Subscriber where
  Name : String
  Priority : Nat
  deriving DecidableEq, Repr

/-- Modelled from the spec: eventbus.ObjectData is not under src; the spec
(section 6) gives the subscriber channel payload as Name, ResourceVersion
and NotificationID. -/
structure ObjectData where
  Name : String
  ResourceVersion : String
  NotificationID : String
  deriving DecidableEq, Repr

/-- A parsed IPv4 network (Go net.IPNet as built by the constructors): the
32-bit address and the CIDR mask length. -/
structure IpNet where
  IP : Nat
  MaskLen : Nat
  deriving DecidableEq, Repr

/-- Protobuf IP prefix (pc.IPPrefix restricted to the v4 form that the
source reads: GetV4Addr and Len). -/
structure IpPfx4 where
  V4Addr : Nat
  Len : Nat
  deriving DecidableEq, Repr

/-- Membership of a key in a Go map modelled as an association list. -/
def mapHasKey {α : Type} (k : String) : List (String × α) → Bool
  | [] => false
  | (k2, _) :: rest => if k2 = k then true else mapHasKey k rest

/-- Lookup of a key in a Go map modelled as an association list. -/
def mapLookup {α : Type} (k : String) : List (String × α) → Option α
  | [] => none
  | (k2, v) :: rest => if k2 = k then some v else mapLookup k rest

/-- Insertion into a Go map modelled as an association list; every insertion
site in the source first checks that the key is absent, so a plain append is
faithful there. -/
def mapInsert {α : Type} (k : String) (v : α) (m : List (String × α)) :
    List (String × α) :=
  m ++ [(k, v)]

/-- Deletion of a key from a Go map modelled as an association list. -/
def mapErase {α : Type} (k : String) : List (String × α) → List (String × α)
  | [] => []
  | (k2, v) :: rest => if k2 = k then mapErase k rest else (k2, v) :: mapErase k rest

/-- The reset condition of the prepareObjectsForReplay loops: the component
matches the failing component name or its last status is not Success. -/
def needsReplay (componentName : String) (comp : Component) : Bool :=
  comp.Name == componentName || comp.CompStatus != ComponentStatus.Success

/-- The loop body shared verbatim by the four prepareObjectsForReplay
implementations (svi.go, logical-bridge, port.go, sa): a component that
needs replay is reset to Pending with empty Details and the subscriber at
the same index is collected.  The index into the subscriber slice follows
the component index, exactly as in the source. -/
def replayComponentsLoop (componentName : String) :
    List Component → List Subscriber → List Component × List Subscriber
  | comp :: comps, sub :: subs =>
      let rest := replayComponentsLoop componentName comps subs
      if needsReplay componentName comp then
        ({ Name := comp.Name, CompStatus := ComponentStatus.Pending,
           Details := "", Timer := 0 } :: rest.1, sub :: rest.2)
      else
        (comp :: rest.1, rest.2)
  | comps, _ => (comps, [])

/-- The loop body shared verbatim by the setComponentState implementations:
replace the first component whose name matches the given one and stop (the
Go loop breaks after the first hit). -/
def setComponentStateLoop (component : Component) : List Component → List Component
  | [] => []
  | comp :: rest =>
      if comp.Name = component.Name then component :: rest
      else comp :: setComponentStateLoop component rest

/-- Index of the first component carrying the given name (specification
vocabulary for the setComponentState theorems). -/
def firstIdxWithName (nm : String) : List Component → Option Nat
  | [] => none
  | comp :: rest =>
      if comp.Name = nm then some 0 else (firstIdxWithName nm rest).map (· + 1)

/-- The reset applied to one component by prepareObjectsForReplay
(specification vocabulary for the replay theorems). -/
def resetIfNeeded (componentName : String) (comp : Component) : Component :=
  if needsReplay componentName comp then
    { Name := comp.Name, CompStatus := ComponentStatus.Pending,
      Details := "", Timer := 0 }
  else comp

/-- SviOperStatus from pkg/infradb/svi.go (iota order). -/
inductive SviOperStatus
  | Unspecified
  | Up
  | Down
  | ToBeDeleted
  deriving DecidableEq, Repr

/-- SviStatus from pkg/infradb/svi.go. -/
structure SviStatus where
  SviOperStatus : SviOperStatus
  Components : List Component
  deriving DecidableEq, Repr

/-- SviSpec from pkg/infradb/svi.go; the MacAddress bytes and the RemoteAs
pointer are flattened to their values. -/
structure SviSpec where
  Vrf : String
  LogicalBridge : String
  MacAddress : List Nat
  GatewayIPs : List IpNet
  EnableBgp : Bool
  RemoteAs : Nat
  deriving DecidableEq, Repr

/-- Svi domain object from pkg/infradb/svi.go; the empty SviMetadata struct
is Unit, pointer fields are flattened. -/
structure Svi where
  Name : String
  Spec : SviSpec
  Status : SviStatus
  Metadata : Unit
  ResourceVersion : String
  deriving DecidableEq, Repr

/-- LogicalBridgeOperStatus from the infradb logical-bridge file (iota order). -/
inductive LogicalBridgeOperStatus
  | Unspecified
  | Up
  | Down
  | ToBeDeleted
  deriving DecidableEq, Repr

/-- LogicalBridgeStatus from the infradb logical-bridge file. -/
structure LogicalBridgeStatus where
  LBOperStatus : LogicalBridgeOperStatus
  Components : List Component
  deriving DecidableEq, Repr

/-- LogicalBridgeSpec from the infradb logical-bridge file. -/
structure LogicalBridgeSpec where
  VlanID : Nat
  Vni : Option Nat
  VtepIP : IpNet
  deriving DecidableEq, Repr

/-- LogicalBridge domain object; BridgePorts (Go map string to bool) and
MacTable (Go map mac to port name) are association lists. -/
structure LogicalBridge where
  Name : String
  Spec : LogicalBridgeSpec
  Status : LogicalBridgeStatus
  Metadata : Unit
  Svi : String
  BridgePorts : List (String × Bool)
  MacTable : List (String × String)
  ResourceVersion : String
  deriving DecidableEq, Repr

/-- BridgePortType from pkg/infradb/port.go (iota order). -/
inductive BridgePortType
  | Unspecified
  | Access
  | Trunk
  deriving DecidableEq, Repr

/-- BridgePortOperStatus from pkg/infradb/port.go (iota order). -/
inductive BridgePortOperStatus
  | Unspecified
  | Up
  | Down
  | ToBeDeleted
  deriving DecidableEq, Repr

/-- BridgePortStatus from pkg/infradb/port.go. -/
structure BridgePortStatus where
  BPOperStatus : BridgePortOperStatus
  Components : List Component
  deriving DecidableEq, Repr

/-- BridgePortSpec from pkg/infradb/port.go. -/
structure BridgePortSpec where
  Name : String
  Ptype : BridgePortType
  MacAddress : List Nat
  LogicalBridges : List String
  deriving DecidableEq, Repr

/-- BridgePortMetadata from pkg/infradb/port.go. -/
structure BridgePortMetadata where
  VPort : String
  deriving DecidableEq, Repr

/-- BridgePort domain object from pkg/infradb/port.go. -/
structure BridgePort where
  Name : String
  Spec : BridgePortSpec
  Status : BridgePortStatus
  Metadata : BridgePortMetadata
  TransparentTrunk : Bool
  Vlans : List Nat
  ResourceVersion : String
  deriving DecidableEq, Repr

/-- SaOperStatus from the infradb sa file (iota order). -/
inductive SaOperStatus
  | Unspecified
  | Up
  | Down
  | ToBeDeleted
  deriving DecidableEq, Repr

/-- IPsec protocol from the infradb sa file. -/
inductive SaProtocol
  | IPSecProtoRSVD
  | IPSecProtoESP
  | IPSecProtoAH
  deriving DecidableEq, Repr

/-- IPsec mode from the infradb sa file. -/
inductive SaMode
  | NoMode
  | Transport
  | Tunnel
  | Beet
  | Pass
  | Drop
  deriving DecidableEq, Repr

/-- Encryption algorithm from the infradb sa file. -/
inductive CryptoAlg
  | RSVD
  | NULL
  | AES_CBC
  | AES_CTR
  | AES_CCM_8
  | AES_CCM_12
  | AES_CCM_16
  | AES_GCM_8
  | AES_GCM_12
  | AES_GCM_16
  | NULL_AUTH_AES_GMAC
  | CHACHA20_POLY1305
  deriving DecidableEq, Repr

/-- Authentication algorithm from the infradb sa file. -/
inductive IntegAlg
  | NONE
  | HMAC_SHA1_96
  | AES_XCBC_96
  | AES_CMAC_96
  | AES_128_GMAC
  | AES_192_GMAC
  | AES_256_GMAC
  | HMAC_SHA2_256_128
  | HMAC_SHA2_384_192
  | HMAC_SHA2_512_256
  | UNDEFINED
  deriving DecidableEq, Repr

/-- DSCP copy mode from the infradb sa file. -/
inductive DscpCopy
  | OUT_ONLY
  | IN_ONLY
  | YES
  | NO
  deriving DecidableEq, Repr

/-- Lifetime from the infradb sa file. -/
structure Lifetime where
  Life : Nat
  Rekey : Nat
  Jitter : Nat
  deriving DecidableEq, Repr

/-- LifetimeCfg from the infradb sa file. -/
structure LifetimeCfg where
  Time : Option Lifetime
  Bytes : Option Lifetime
  Packets : Option Lifetime
  deriving DecidableEq, Repr

/-- SaStatus from the infradb sa file. -/
structure SaStatus where
  SaOperStatus : SaOperStatus
  Components : List Component
  deriving DecidableEq, Repr

/-- SaSpec from the infradb sa file; the parsed net.IP values are kept as
their textual form. -/
structure SaSpec where
  SrcIP : String
  DstIP : String
  Spi : Nat
  Protocol : SaProtocol
  IfId : Nat
  Mode : SaMode
  Interface : String
  LifetimeCfg : Option LifetimeCfg
  EncAlg : CryptoAlg
  EncKey : List Nat
  IntAlg : IntegAlg
  IntKey : List Nat
  ReplayWindow : Nat
  UdpEncap : Bool
  Esn : Bool
  CopyDf : Bool
  CopyEcn : Bool
  CopyDscp : DscpCopy
  Inbound : Bool
  Vrf : String
  deriving DecidableEq, Repr

/-- Sa domain object from the infradb sa file. -/
structure Sa where
  Name : String
  Spec : SaSpec
  Status : SaStatus
  Metadata : Unit
  Vrf : String
  Index : Nat
  OldVersions : List String
  ResourceVersion : String
  deriving DecidableEq, Repr

/-- VrfOperStatus: the spec (section 3) lists Unspecified, Up, Down,
ToBeDeleted for Vrf as for the other kinds. -/
inductive VrfOperStatus
  | Unspecified
  | Up
  | Down
  | ToBeDeleted
  deriving DecidableEq, Repr

/-- Modelled from the spec: the infradb Vrf status (the Vrf Go file is not
under src); the spec gives an oper status and the ordered component vector. -/
structure VrfStatus where
  VrfOperStatus : VrfOperStatus
  Components : List Component
  deriving DecidableEq, Repr

/-- Modelled from the spec: the infradb VrfSpec (not under src); spec section
3 gives optional VNI, LoopbackIP and VtepIP, and the frr module under src
reads exactly these fields. -/
structure VrfSpec where
  Vni : Option Nat
  LoopbackIP : Option IpNet
  VtepIP : Option IpNet
  deriving DecidableEq, Repr

/-- Modelled from the spec: the infradb Vrf domain object (not under src);
the common envelope of section 3 plus the fields the frr module reads. -/
structure Vrf where
  Name : String
  Spec : VrfSpec
  Status : VrfStatus
  Metadata : Unit
  ResourceVersion : String
  deriving DecidableEq, Repr

/-- Svi.prepareObjectsForReplay from pkg/infradb/svi.go: resets the failing
or unsuccessful components to Pending, moves an Up operational status to
Down, assigns a fresh ResourceVersion (generateVersion is external and its
result is the supplied fresh value) and returns the subscribers of the
reset components. -/
def Svi.prepareObjectsForReplay (o : Svi) (componentName : String)
    (sviSubs : List Subscriber) (fresh : String) : Svi × List Subscriber :=
  let r := replayComponentsLoop componentName o.Status.Components sviSubs
  ({ o with
      Status :=
        { SviOperStatus :=
            if o.Status.SviOperStatus = SviOperStatus.Up then SviOperStatus.Down
            else o.Status.SviOperStatus,
          Components := r.1 },
      ResourceVersion := fresh },
    r.2)

/-- LogicalBridge.prepareObjectsForReplay from the infradb logical-bridge
file, same loop as the Svi variant. -/
def LogicalBridge.prepareObjectsForReplay (o : LogicalBridge) (componentName : String)
    (lbSubs : List Subscriber) (fresh : String) : LogicalBridge × List Subscriber :=
  let r := replayComponentsLoop componentName o.Status.Components lbSubs
  ({ o with
      Status :=
        { LBOperStatus :=
            if o.Status.LBOperStatus = LogicalBridgeOperStatus.Up then LogicalBridgeOperStatus.Down
            else o.Status.LBOperStatus,
          Components := r.1 },
      ResourceVersion := fresh },
    r.2)

/-- BridgePort.prepareObjectsForReplay from pkg/infradb/port.go, same loop
as the Svi variant. -/
def BridgePort.prepareObjectsForReplay (o : BridgePort) (componentName : String)
    (bpSubs : List Subscriber) (fresh : String) : BridgePort × List Subscriber :=
  let r := replayComponentsLoop componentName o.Status.Components bpSubs
  ({ o with
      Status :=
        { BPOperStatus :=
            if o.Status.BPOperStatus = BridgePortOperStatus.Up then BridgePortOperStatus.Down
            else o.Status.BPOperStatus,
          Components := r.1 },
      ResourceVersion := fresh },
    r.2)

/-- Sa.prepareObjectsForReplay from the infradb sa file, same loop as the
Svi variant. -/
def Sa.prepareObjectsForReplay (o : Sa) (componentName : String)
    (saSubs : List Subscriber) (fresh : String) : Sa × List Subscriber :=
  let r := replayComponentsLoop componentName o.Status.Components saSubs
  ({ o with
      Status :=
        { SaOperStatus :=
            if o.Status.SaOperStatus = SaOperStatus.Up then SaOperStatus.Down
            else o.Status.SaOperStatus,
          Components := r.1 },
      ResourceVersion := fresh },
    r.2)

/-- Svi.setComponentState from pkg/infradb/svi.go. -/
def Svi.setComponentState (o : Svi) (component : Component) : Svi :=
  { o with Status := { o.Status with
      Components := setComponentStateLoop component o.Status.Components } }

/-- LogicalBridge.setComponentState from the infradb logical-bridge file. -/
def LogicalBridge.setComponentState (o : LogicalBridge) (component : Component) :
    LogicalBridge :=
  { o with Status := { o.Status with
      Components := setComponentStateLoop component o.Status.Components } }

/-- BridgePort.setComponentState from pkg/infradb/port.go. -/
def BridgePort.setComponentState (o : BridgePort) (component : Component) : BridgePort :=
  { o with Status := { o.Status with
      Components := setComponentStateLoop component o.Status.Components } }

/-- Sa.setComponentState from the infradb sa file. -/
def Sa.setComponentState (o : Sa) (component : Component) : Sa :=
  { o with Status := { o.Status with
      Components := setComponentStateLoop component o.Status.Components } }

/-- LogicalBridge.AddSvi from the infradb logical-bridge file: rejected when
the bridge already holds an SVI reference; the Go method mutates the
receiver and returns only the error, modelled as returning the new object
and the error. -/
def LogicalBridge.AddSvi (o : LogicalBridge) (sviName : String) :
    LogicalBridge × Option String :=
  if o.Svi ≠ "" then
    (o, some ("AddSvi(): the logical bridge is already associated with an svi interface: " ++ o.Svi))
  else
    ({ o with Svi := sviName }, none)

/-- LogicalBridge.DeleteSvi from the infradb logical-bridge file. -/
def LogicalBridge.DeleteSvi (o : LogicalBridge) (sviName : String) :
    LogicalBridge × Option String :=
  if o.Svi ≠ sviName then
    (o, some ("DeleteSvi(): the logical bridge is not associated with the svi interface: " ++ sviName))
  else
    ({ o with Svi := "" }, none)

/-- LogicalBridge.AddBridgePort from the infradb logical-bridge file:
rejected when the port name is already referenced or the mac is already in
the mac table, otherwise both entries are added. -/
def LogicalBridge.AddBridgePort (o : LogicalBridge) (bpName bpMac : String) :
    LogicalBridge × Option String :=
  if mapHasKey bpName o.BridgePorts then
    (o, some ("AddBridgePort(): the logical bridge " ++ o.Name ++ " is already associated with the bridge port: " ++ bpName))
  else if mapHasKey bpMac o.MacTable then
    (o, some ("AddBridgePort(): the logical bridge " ++ o.Name ++ " is already associated with the bridge port mac: " ++ bpMac))
  else
    ({ o with
        BridgePorts := mapInsert bpName false o.BridgePorts,
        MacTable := mapInsert bpMac bpName o.MacTable }, none)

/-- LogicalBridge.DeleteBridgePort from the infradb logical-bridge file. -/
def LogicalBridge.DeleteBridgePort (o : LogicalBridge) (bpName bpMac : String) :
    LogicalBridge × Option String :=
  if ¬ mapHasKey bpName o.BridgePorts then
    (o, some ("DeleteBridgePort(): the logical bridge " ++ o.Name ++ " is not associated with the bridge port: " ++ bpName))
  else if ¬ mapHasKey bpMac o.MacTable then
    (o, some ("DeleteBridgePort(): the logical bridge " ++ o.Name ++ " is not associated with the bridge port mac: " ++ bpMac))
  else
    ({ o with
        BridgePorts := mapErase bpName o.BridgePorts,
        MacTable := mapErase bpMac o.MacTable }, none)

/-- Go zero value of the Svi structure, as returned next to the error by
NewSvi; pointer fields flattened to their zero structures. -/
def emptySvi : Svi :=
  { Name := ""
    Spec := { Vrf := "", LogicalBridge := "", MacAddress := [], GatewayIPs := [],
              EnableBgp := false, RemoteAs := 0 }
    Status := { SviOperStatus := SviOperStatus.Unspecified, Components := [] }
    Metadata := ()
    ResourceVersion := "" }

/-- Go zero value of the LogicalBridge structure, as returned next to the
error by NewLogicalBridge. -/
def emptyLogicalBridge : LogicalBridge :=
  { Name := ""
    Spec := { VlanID := 0, Vni := none, VtepIP := { IP := 0, MaskLen := 0 } }
    Status := { LBOperStatus := LogicalBridgeOperStatus.Unspecified, Components := [] }
    Metadata := ()
    Svi := ""
    BridgePorts := []
    MacTable := []
    ResourceVersion := "" }

/-- Go zero value of the BridgePort structure, as returned next to the
error by NewBridgePort. -/
def emptyBridgePort : BridgePort :=
  { Name := ""
    Spec := { Name := "", Ptype := BridgePortType.Unspecified, MacAddress := [],
              LogicalBridges := [] }
    Status := { BPOperStatus := BridgePortOperStatus.Unspecified, Components := [] }
    Metadata := { VPort := "" }
    TransparentTrunk := false
    Vlans := []
    ResourceVersion := "" }

/-- Protobuf pb.SviSpec as the constructors and validators read it; the
GwIpPrefix repeated field is named GwIpPfxList here. -/
structure PbSviSpec where
  Vrf : String
  LogicalBridge : String
  MacAddress : List Nat
  GwIpPfxList : List IpPfx4
  EnableBgp : Bool
  RemoteAs : Nat
  deriving DecidableEq, Repr

/-- Protobuf pb.Svi as the constructors and validators read it. -/
structure PbSvi where
  Name : String
  Spec : PbSviSpec
  deriving DecidableEq, Repr

/-- Protobuf pb.LogicalBridgeSpec as NewLogicalBridge reads it; the
VtepIpPrefix field is named VtepIpPfx here. -/
structure PbLogicalBridgeSpec where
  VlanId : Nat
  Vni : Option Nat
  VtepIpPfx : Option IpPfx4
  deriving DecidableEq, Repr

/-- Protobuf pb.LogicalBridge as NewLogicalBridge reads it. -/
structure PbLogicalBridge where
  Name : String
  Spec : PbLogicalBridgeSpec
  deriving DecidableEq, Repr

/-- Protobuf bridge port type enum. -/
inductive PbBridgePortType
  | Unspecified
  | Access
  | Trunk
  deriving DecidableEq, Repr

/-- Protobuf pb.BridgePortSpec as NewBridgePort reads it. -/
structure PbBridgePortSpec where
  Ptype : PbBridgePortType
  MacAddress : List Nat
  LogicalBridges : List String
  deriving DecidableEq, Repr

/-- Protobuf pb.BridgePort as NewBridgePort reads it. -/
structure PbBridgePort where
  Name : String
  Spec : PbBridgePortSpec
  deriving DecidableEq, Repr

/-- The component a constructor builds for one registered subscriber. -/
def pendingComponentFor (sub : Subscriber) : Component :=
  { Name := sub.Name, CompStatus := ComponentStatus.Pending, Details := "", Timer := 0 }

/-- NewSvi from pkg/infradb/svi.go: parses the gateway prefixes, requires at
least one registered svi subscriber (the eventbus registry is external and
supplied as the subscribers argument), and builds the object Down with one
Pending component per subscriber.  generateVersion is external and its
result is the fresh argument.  Mirrors the Go pair return (object, error). -/
def NewSvi (subscribers : List Subscriber) (fresh : String) (input : PbSvi) :
    Svi × Option String :=
  let gwIPs := input.Spec.GwIpPfxList.map fun p => IpNet.mk p.V4Addr p.Len
  if subscribers.isEmpty then
    (emptySvi, some "no subscribers found for svi")
  else
    ({ Name := input.Name
       Spec := { Vrf := input.Spec.Vrf, LogicalBridge := input.Spec.LogicalBridge,
                 MacAddress := input.Spec.MacAddress, GatewayIPs := gwIPs,
                 EnableBgp := input.Spec.EnableBgp, RemoteAs := input.Spec.RemoteAs }
       Status := { SviOperStatus := SviOperStatus.Down,
                   Components := subscribers.map pendingComponentFor }
       Metadata := ()
       ResourceVersion := fresh }, none)

/-- NewLogicalBridge from the infradb logical-bridge file: the vtep IP comes
from the message or, if absent, from the configured default (supplied as
defaultVtep); requires at least one registered logical-bridge subscriber. -/
def NewLogicalBridge (subscribers : List Subscriber) (fresh : String)
    (defaultVtep : IpNet) (input : PbLogicalBridge) : LogicalBridge × Option String :=
  let vip : IpNet :=
    match input.Spec.VtepIpPfx with
    | some p => { IP := p.V4Addr, MaskLen := p.Len }
    | none => defaultVtep
  if subscribers.isEmpty then
    (emptyLogicalBridge, some "no subscribers found for logical bridge")
  else
    ({ Name := input.Name
       Spec := { VlanID := input.Spec.VlanId, Vni := input.Spec.Vni, VtepIP := vip }
       Status := { LBOperStatus := LogicalBridgeOperStatus.Down,
                   Components := subscribers.map pendingComponentFor }
       Metadata := ()
       Svi := ""
       BridgePorts := []
       MacTable := []
       ResourceVersion := fresh }, none)

/-- NewBridgePort from pkg/infradb/port.go: requires at least one registered
bridge-port subscriber; a port without logical bridges is a transparent
trunk; the protobuf port type is mapped with Unspecified as default. -/
def NewBridgePort (subscribers : List Subscriber) (fresh : String)
    (input : PbBridgePort) : BridgePort × Option String :=
  if subscribers.isEmpty then
    (emptyBridgePort, some "no subscribers found for bridge port")
  else
    let transTrunk := input.Spec.LogicalBridges.isEmpty
    let bpType :=
      match input.Spec.Ptype with
      | PbBridgePortType.Access => BridgePortType.Access
      | PbBridgePortType.Trunk => BridgePortType.Trunk
      | PbBridgePortType.Unspecified => BridgePortType.Unspecified
    ({ Name := input.Name
       Spec := { Name := "", Ptype := bpType, MacAddress := input.Spec.MacAddress,
                 LogicalBridges := input.Spec.LogicalBridges }
       Status := { BPOperStatus := BridgePortOperStatus.Down,
                   Components := subscribers.map pendingComponentFor }
       Metadata := { VPort := "" }
       TransparentTrunk := transTrunk
       Vlans := []
       ResourceVersion := fresh }, none)

/-- Error cases of validateSviSpec; invalidMac and invalidRemoteAs are the
two InvalidArgument errors raised by the function itself, badResourceName is
the error of the external resourcename validator. -/
inductive SviSpecErr
  | badResourceName
  | invalidMac
  | invalidRemoteAs
  deriving DecidableEq, Repr

/-- validateSviSpec from the svi gRPC package (src/unnamed/part_000):
validates the LogicalBridge and Vrf resource names (external einride
validator, supplied as resourceNameValid), the MAC address format (external
utils.ValidateMacAddress, supplied as macValid), and rejects RemoteAs above
65535 with InvalidArgument. -/
def validateSviSpec (resourceNameValid : String → Bool) (macValid : List Nat → Bool)
    (svi : PbSvi) : Option SviSpecErr :=
  if ¬ resourceNameValid svi.Spec.LogicalBridge then some SviSpecErr.badResourceName
  else if ¬ resourceNameValid svi.Spec.Vrf then some SviSpecErr.badResourceName
  else if ¬ macValid svi.Spec.MacAddress then some SviSpecErr.invalidMac
  else if svi.Spec.RemoteAs > 65535 then some SviSpecErr.invalidRemoteAs
  else none

/-- Protobuf pb.VrfSpec as the vrf gRPC server exchanges it; the update-mask
comparison of UpdateVrf deep-equals whole messages, so structural equality
of this model stands for reflect.DeepEqual. -/
structure PbVrfSpec where
  Vni : Option Nat
  LoopbackIpPfx : Option IpPfx4
  VtepIpPfx : Option IpPfx4
  deriving DecidableEq, Repr

/-- Protobuf pb.Vrf as the vrf gRPC server exchanges it. -/
structure PbVrf where
  Name : String
  Spec : PbVrfSpec
  deriving DecidableEq, Repr

/-- Modelled from the spec: one stored row of the vrf server: the protobuf
view of the object together with its ResourceVersion, which the spec
(section 3) regenerates on any mutation; versions are drawn from a counter
so freshness is expressible. -/
structure StoredVrf where
  pbObj : PbVrf
  version : Nat
  deriving DecidableEq, Repr

/-- Modelled from the spec: the state the vrf gRPC server operates on: the
persistent store keyed by full resource name, the names for which a task
has been enqueued (spec 4.5 step 7), and the fresh-version counter. -/
structure VrfServerState where
  store : List (String × StoredVrf)
  tasks : List String
  nextVersion : Nat
  deriving DecidableEq, Repr

/-- resourceIDToFullName of the vrf package: joins the resource id under the
vrfs collection (the analogous port helper under src joins under ports, and
the spec fixes the key layout as two slashes, host, kind plural, id). -/
def resourceIDToFullName (resourceID : String) : String :=
  "//network.opiproject.org/vrfs/" ++ resourceID

/-- Modelled from the spec: the getVrf helper of the vrf server (not under
src; the analogous getBridgePort helper under src is a keyed read through
infradb): a keyed read of the store. -/
def getVrf (name : String) (st : VrfServerState) : Option PbVrf :=
  (mapLookup name st.store).map StoredVrf.pbObj

/-- Modelled from the spec: the createVrf helper of the vrf server (not
under src): persists the new object with a fresh ResourceVersion and
enqueues a Task covering all subscribers (spec 4.5 steps 5 to 7), returning
the created object. -/
def createVrf (v : PbVrf) (st : VrfServerState) : VrfServerState × PbVrf :=
  ({ store := st.store ++ [(v.Name, { pbObj := v, version := st.nextVersion })]
     tasks := st.tasks ++ [v.Name]
     nextVersion := st.nextVersion + 1 }, v)

/-- Modelled from the spec: the updateVrf helper of the vrf server (not
under src): persists the changed object, bumps the ResourceVersion and
enqueues a Task (spec 4.5, Update). -/
def updateVrf (v : PbVrf) (st : VrfServerState) : VrfServerState × PbVrf :=
  ({ store := mapErase v.Name st.store ++ [(v.Name, { pbObj := v, version := st.nextVersion })]
     tasks := st.tasks ++ [v.Name]
     nextVersion := st.nextVersion + 1 }, v)

/-- CreateVrf request: the client-supplied id and the object body. -/
structure CreateVrfRequest where
  VrfId : String
  Vrf : PbVrf
  deriving DecidableEq, Repr

/-- The object name CreateVrf derives for a request: the client id when one
was supplied, the system-generated id otherwise. -/
def vrfRequestName (sysGenID : String) (req : CreateVrfRequest) : String :=
  resourceIDToFullName (if req.VrfId ≠ "" then req.VrfId else sysGenID)

/-- CreateVrf gRPC handler from src/unnamed/part_002: after validation
(external; validateOk is its verdict) the object name is derived from the
id (resourceid.NewSystemGenerated is external and supplied as sysGenID);
when the key is already stored the stored object is returned and nothing
changes, otherwise createVrf persists the body under the derived name.
Store I/O failures are not modelled, so the only getVrf outcomes are found
and ErrKeyNotFound. -/
def CreateVrf (validateOk : Bool) (sysGenID : String) (req : CreateVrfRequest)
    (st : VrfServerState) : VrfServerState × Except String PbVrf :=
  if ¬ validateOk then (st, Except.error "validation failure")
  else
    let name := vrfRequestName sysGenID req
    match getVrf name st with
    | some vrfObj => (st, Except.ok vrfObj)
    | none =>
        let r := createVrf { req.Vrf with Name := name } st
        (r.1, Except.ok r.2)

/-- UpdateVrf request body. -/
structure UpdateVrfRequest where
  Vrf : PbVrf
  UpdateMask : List String
  AllowMissing : Bool
  deriving DecidableEq, Repr

/-- UpdateVrf gRPC handler from src/unnamed/part_002: fetches the stored
object, applies the update mask to a clone (utils.ApplyMaskToStoredPbObject
is external and supplied as applyMask), and returns the stored object
unchanged when the masked result deep-equals it; otherwise updateVrf
persists the masked object.  A missing key is created when AllowMissing is
set and rejected otherwise. -/
def UpdateVrf (validateOk : Bool) (applyMask : List String → PbVrf → PbVrf → PbVrf)
    (req : UpdateVrfRequest) (st : VrfServerState) :
    VrfServerState × Except String PbVrf :=
  if ¬ validateOk then (st, Except.error "validation failure")
  else
    match getVrf req.Vrf.Name st with
    | none =>
        if ¬ req.AllowMissing then (st, Except.error "NotFound")
        else
          let r := createVrf req.Vrf st
          (r.1, Except.ok r.2)
    | some vrfObj =>
        let updatedvrfObj := applyMask req.UpdateMask vrfObj req.Vrf
        if vrfObj = updatedvrfObj then (st, Except.ok vrfObj)
        else
          let r := updateVrf updatedvrfObj st
          (r.1, Except.ok r.2)

/-- The frr component name constant of the frr module. -/
def frrComp : String := "frr"

/-- replayThreshold of the frr module: 64 seconds (64 multiplied by
time.Second, modelled in seconds). -/
def replayThreshold : Nat := 64

/-- Modelled from the spec: Component.CheckReplayThreshold of the common
package is not under src; the spec (4.4 step 2 and 4.7) triggers a global
replay exactly when the component Timer has reached the replay threshold.
The returned Bool is whether replay is triggered. -/
def Component.CheckReplayThreshold (comp : Component) (threshold : Nat) : Bool :=
  threshold ≤ comp.Timer

/-- The timer update on an Error result in the frr handlers, written
verbatim at every error site: seed 2 seconds when the timer is 0, double it
otherwise. -/
def backoffBump (t : Nat) : Nat := if t = 0 then 2 else t * 2

/-- The component result computed by the main path of handlevrf and
handlesvi: the frr component gets the operation details; Success resets the
Timer to 0, Error bumps it. -/
def frrResultComp (comp0 : Component) (detail : String) (ok : Bool) : Component :=
  if ok then
    { comp0 with Name := frrComp, Details := detail,
                 CompStatus := ComponentStatus.Success, Timer := 0 }
  else
    { comp0 with Name := frrComp, Details := detail,
                 CompStatus := ComponentStatus.Error, Timer := backoffBump comp0.Timer }

/-- The loop of handlevrf and handlesvi that copies the stored frr component
into the local comp variable: the last matching entry wins and the variable
starts from the Go zero value. -/
def pickFrrComp (comps : List Component) : Component :=
  comps.foldl (fun acc c => if c.Name = frrComp then c else acc) zeroComponent

/-- One status-update call made back into InfraDB by a handler
(UpdateVrfStatus or UpdateSviStatus; the specOverlay argument is nil at
every call site modelled here). -/
structure StatusUpdateCall where
  name : String
  resourceVersion : String
  notificationID : String
  comp : Component
  deriving DecidableEq, Repr

/-- Externally visible behaviour of one frr event-handler invocation:
whether the set-up or the tear-down routine ran, the status-update call
made back into InfraDB, and the threshold passed to CheckReplayThreshold
when it was invoked. -/
structure FrrHandlerEffect where
  setUpDone : Bool
  tearDownDone : Bool
  statusUpdate : Option StatusUpdateCall
  replayChecked : Option Nat
  deriving DecidableEq, Repr

/-- handlevrf from the frr module (src/pkg/infradb/port.go): re-fetches the
Vrf (the infradb read is external and its result is getRes, none standing
for a GetVrf error), verifies the ResourceVersion against the notification
and reports Error without further work on mismatch; on the main path it
runs setUpVrf or tearDownVrf (external, their (details, status) results are
the setUpRes and tearDownRes oracles), invokes CheckReplayThreshold with
replayThreshold, and reports the frr component through UpdateVrfStatus. -/
def handlevrf (od : ObjectData) (getRes : Option Vrf)
    (setUpRes : String × Bool) (tearDownRes : String × Bool) : FrrHandlerEffect :=
  match getRes with
  | none =>
      { setUpDone := false, tearDownDone := false
        statusUpdate := some
          { name := od.Name, resourceVersion := od.ResourceVersion
            notificationID := od.NotificationID
            comp := { Name := frrComp, CompStatus := ComponentStatus.Error
                      Details := "GetVRF error: " ++ od.Name
                      Timer := backoffBump 0 } }
        replayChecked := none }
  | some vrf =>
      if od.ResourceVersion ≠ vrf.ResourceVersion then
        { setUpDone := false, tearDownDone := false
          statusUpdate := some
            { name := od.Name, resourceVersion := od.ResourceVersion
              notificationID := od.NotificationID
              comp := { Name := frrComp, CompStatus := ComponentStatus.Error
                        Details := "FRR: Mismatch in resoruce version " ++ od.ResourceVersion
                          ++ " and vrf resource version " ++ vrf.ResourceVersion
                        Timer := backoffBump 0 } }
          replayChecked := none }
      else
        let comp0 := pickFrrComp vrf.Status.Components
        if vrf.Status.VrfOperStatus ≠ VrfOperStatus.ToBeDeleted then
          { setUpDone := true, tearDownDone := false
            statusUpdate := some
              { name := od.Name, resourceVersion := od.ResourceVersion
                notificationID := od.NotificationID
                comp := frrResultComp comp0 setUpRes.1 setUpRes.2 }
            replayChecked := some replayThreshold }
        else
          { setUpDone := false, tearDownDone := true
            statusUpdate := some
              { name := od.Name, resourceVersion := od.ResourceVersion
                notificationID := od.NotificationID
                comp := frrResultComp comp0 tearDownRes.1 tearDownRes.2 }
            replayChecked := some replayThreshold }

/-- handlesvi from the frr module (src/pkg/infradb/port.go): the same shape
as handlevrf over the Svi kind, replying through UpdateSviStatus. -/
def handlesvi (od : ObjectData) (getRes : Option Svi)
    (setUpRes : String × Bool) (tearDownRes : String × Bool) : FrrHandlerEffect :=
  match getRes with
  | none =>
      { setUpDone := false, tearDownDone := false
        statusUpdate := some
          { name := od.Name, resourceVersion := od.ResourceVersion
            notificationID := od.NotificationID
            comp := { Name := frrComp, CompStatus := ComponentStatus.Error
                      Details := "GetSvi error: " ++ od.Name
                      Timer := backoffBump 0 } }
        replayChecked := none }
  | some svi =>
      if od.ResourceVersion ≠ svi.ResourceVersion then
        { setUpDone := false, tearDownDone := false
          statusUpdate := some
            { name := od.Name, resourceVersion := od.ResourceVersion
              notificationID := od.NotificationID
              comp := { Name := frrComp, CompStatus := ComponentStatus.Error
                        Details := "FRR: Mismatch in resoruce version " ++ od.ResourceVersion
                          ++ " and svi resource version " ++ svi.ResourceVersion
                        Timer := backoffBump 0 } }
          replayChecked := none }
      else
        let comp0 := pickFrrComp svi.Status.Components
        if svi.Status.SviOperStatus ≠ SviOperStatus.ToBeDeleted then
          { setUpDone := true, tearDownDone := false
            statusUpdate := some
              { name := od.Name, resourceVersion := od.ResourceVersion
                notificationID := od.NotificationID
                comp := frrResultComp comp0 setUpRes.1 setUpRes.2 }
            replayChecked := some replayThreshold }
        else
          { setUpDone := false, tearDownDone := true
            statusUpdate := some
              { name := od.Name, resourceVersion := od.ResourceVersion
                notificationID := od.NotificationID
                comp := frrResultComp comp0 tearDownRes.1 tearDownRes.2 }
            replayChecked := some replayThreshold }

/-- Timer evolution under consecutive Error results on the main path of the
frr handlers: each round the persisted frr component is fed back into the
next invocation and bumped again. -/
def frrErrIter (detail : String) : Nat → Component → Component
  | 0, c => c
  | n + 1, c => frrResultComp (frrErrIter detail n c) detail false

/-- Key uniqueness of the two Go maps of a LogicalBridge (the map invariants
of the spec: a bridge port name and a mac address appear at most once). -/
def lbKeysNodup (lb : LogicalBridge) : Prop :=
  (lb.BridgePorts.map Prod.fst).Nodup ∧ (lb.MacTable.map Prod.fst).Nodup

/-- A concrete Sa value used to instantiate universally quantified theorems
in witnesses. -/
def sampleSa : Sa :=
  { Name := ""
    Spec := { SrcIP := "", DstIP := "", Spi := 0,
              Protocol := SaProtocol.IPSecProtoRSVD, IfId := 0, Mode := SaMode.NoMode,
              Interface := "", LifetimeCfg := none, EncAlg := CryptoAlg.RSVD, EncKey := [],
              IntAlg := IntegAlg.NONE, IntKey := [], ReplayWindow := 0, UdpEncap := false,
              Esn := false, CopyDf := false, CopyEcn := false, CopyDscp := DscpCopy.OUT_ONLY,
              Inbound := false, Vrf := "" }
    Status := { SaOperStatus := SaOperStatus.Unspecified, Components := [] }
    Metadata := ()
    Vrf := ""
    Index := 0
    OldVersions := []
    ResourceVersion := "" }

theorem mapHasKey_eq_true_iff {α : Type} (k : String) (m : List (String × α)) :
    mapHasKey k m = true ↔ k ∈ m.map Prod.fst := by
  induction m with
  | nil => simp [mapHasKey]
  | cons p rest ih =>
      obtain ⟨k2, v⟩ := p
      by_cases h : k2 = k
      · subst h
        simp [mapHasKey]
      · rw [List.map_cons, List.mem_cons]
        simp only [mapHasKey, if_neg h, ih]
        constructor
        · intro hk
          exact Or.inr hk
        · intro hk
          rcases hk with hk | hk
          · exact absurd hk.symm h
          · exact hk

theorem mapHasKey_eq_false_iff {α : Type} (k : String) (m : List (String × α)) :
    mapHasKey k m = false ↔ k ∉ m.map Prod.fst := by
  rw [← mapHasKey_eq_true_iff]
  cases mapHasKey k m <;> simp

theorem mapLookup_append_of_notfound {α : Type} (k : String) (m : List (String × α))
    (x : α) (h : mapLookup k m = none) : mapLookup k (m ++ [(k, x)]) = some x := by
  induction m with
  | nil => simp [mapLookup]
  | cons p rest ih =>
      obtain ⟨k2, v⟩ := p
      by_cases hk : k2 = k
      · simp [mapLookup, hk] at h
      · have h2 : mapLookup k rest = none := by
          simpa [mapLookup, hk] using h
        rw [List.cons_append]
        simp only [mapLookup, if_neg hk]
        exact ih h2

theorem mapErase_sublist {α : Type} (k : String) (m : List (String × α)) :
    (mapErase k m).Sublist m := by
  induction m with
  | nil => simp [mapErase]
  | cons p rest ih =>
      obtain ⟨k2, v⟩ := p
      by_cases h : k2 = k
      · simpa [mapErase, h] using ih.cons (k2, v)
      · simpa [mapErase, h] using ih.cons₂ (k2, v)

theorem replayComponentsLoop_eq (nm : String) :
    ∀ (comps : List Component) (subs : List Subscriber),
      comps.length = subs.length →
      replayComponentsLoop nm comps subs =
        (comps.map (resetIfNeeded nm),
         ((comps.zip subs).filter fun p => needsReplay nm p.1).map Prod.snd) := by
  intro comps
  induction comps with
  | nil =>
      intro subs h
      cases subs with
      | nil => simp [replayComponentsLoop]
      | cons s ss => simp at h
  | cons c cs ih =>
      intro subs h
      cases subs with
      | nil => simp at h
      | cons s ss =>
          simp only [List.length_cons, Nat.add_right_cancel_iff] at h
          by_cases hc : needsReplay nm c
          · simp [replayComponentsLoop, hc, ih ss h, resetIfNeeded]
          · simp [replayComponentsLoop, hc, ih ss h, resetIfNeeded]

theorem setComponentStateLoop_eq (component : Component) (l : List Component) :
    setComponentStateLoop component l =
      (match firstIdxWithName component.Name l with
       | none => l
       | some i => l.set i component) := by
  induction l with
  | nil => simp [setComponentStateLoop, firstIdxWithName]
  | cons c rest ih =>
      by_cases h : c.Name = component.Name
      · simp [setComponentStateLoop, firstIdxWithName, h]
      · cases hr : firstIdxWithName component.Name rest with
        | none =>
            simp [setComponentStateLoop, firstIdxWithName, h, hr, hr ▸ ih]
        | some i =>
            simp [setComponentStateLoop, firstIdxWithName, h, hr, hr ▸ ih]

/-- C10: for every domain object (Svi, LogicalBridge, BridgePort, Sa) and
every component value, setComponentState replaces at most the first entry
of Status.Components whose Name equals the given component's Name; every
other component entry, the length and order of the components list, and
all other fields of the object (Name, Spec, Metadata, ResourceVersion,
operational status, and the remaining kind-specific fields) are unchanged;
and when no component name matches, the whole object is unchanged. -/
theorem C10_setComponentState_frame (s : Svi) (lb : LogicalBridge) (bp : BridgePort)
    (sa : Sa) (c : Component) :
    ((s.setComponentState c).Name = s.Name ∧
     (s.setComponentState c).Spec = s.Spec ∧
     (s.setComponentState c).Metadata = s.Metadata ∧
     (s.setComponentState c).ResourceVersion = s.ResourceVersion ∧
     (s.setComponentState c).Status.SviOperStatus = s.Status.SviOperStatus ∧
     (s.setComponentState c).Status.Components =
       (match firstIdxWithName c.Name s.Status.Components with
        | none => s.Status.Components
        | some i => s.Status.Components.set i c) ∧
     ((s.setComponentState c).Status.Components).length = s.Status.Components.length ∧
     (firstIdxWithName c.Name s.Status.Components = none → s.setComponentState c = s)) ∧
    ((lb.setComponentState c).Name = lb.Name ∧
     (lb.setComponentState c).Spec = lb.Spec ∧
     (lb.setComponentState c).Metadata = lb.Metadata ∧
     (lb.setComponentState c).ResourceVersion = lb.ResourceVersion ∧
     (lb.setComponentState c).Svi = lb.Svi ∧
     (lb.setComponentState c).BridgePorts = lb.BridgePorts ∧
     (lb.setComponentState c).MacTable = lb.MacTable ∧
     (lb.setComponentState c).Status.LBOperStatus = lb.Status.LBOperStatus ∧
     (lb.setComponentState c).Status.Components =
       (match firstIdxWithName c.Name lb.Status.Components with
        | none => lb.Status.Components
        | some i => lb.Status.Components.set i c) ∧
     ((lb.setComponentState c).Status.Components).length = lb.Status.Components.length ∧
     (firstIdxWithName c.Name lb.Status.Components = none → lb.setComponentState c = lb)) ∧
    ((bp.setComponentState c).Name = bp.Name ∧
     (bp.setComponentState c).Spec = bp.Spec ∧
     (bp.setComponentState c).Metadata = bp.Metadata ∧
     (bp.setComponentState c).ResourceVersion = bp.ResourceVersion ∧
     (bp.setComponentState c).TransparentTrunk = bp.TransparentTrunk ∧
     (bp.setComponentState c).Vlans = bp.Vlans ∧
     (bp.setComponentState c).Status.BPOperStatus = bp.Status.BPOperStatus ∧
     (bp.setComponentState c).Status.Components =
       (match firstIdxWithName c.Name bp.Status.Components with
        | none => bp.Status.Components
        | some i => bp.Status.Components.set i c) ∧
     ((bp.setComponentState c).Status.Components).length = bp.Status.Components.length ∧
     (firstIdxWithName c.Name bp.Status.Components = none → bp.setComponentState c = bp)) ∧
    ((sa.setComponentState c).Name = sa.Name ∧
     (sa.setComponentState c).Spec = sa.Spec ∧
     (sa.setComponentState c).Metadata = sa.Metadata ∧
     (sa.setComponentState c).ResourceVersion = sa.ResourceVersion ∧
     (sa.setComponentState c).Vrf = sa.Vrf ∧
     (sa.setComponentState c).Index = sa.Index ∧
     (sa.setComponentState c).OldVersions = sa.OldVersions ∧
     (sa.setComponentState c).Status.SaOperStatus = sa.Status.SaOperStatus ∧
     (sa.setComponentState c).Status.Components =
       (match firstIdxWithName c.Name sa.Status.Components with
        | none => sa.Status.Components
        | some i => sa.Status.Components.set i c) ∧
     ((sa.setComponentState c).Status.Components).length = sa.Status.Components.length ∧
     (firstIdxWithName c.Name sa.Status.Components = none → sa.setComponentState c = sa)) := by
  have hlen : ∀ l : List Component,
      (setComponentStateLoop c l).length = l.length := by
    intro l
    rw [setComponentStateLoop_eq]
    cases firstIdxWithName c.Name l with
    | none => rfl
    | some i => simp
  have hnone : ∀ l : List Component, firstIdxWithName c.Name l = none →
      setComponentStateLoop c l = l := by
    intro l hl
    rw [setComponentStateLoop_eq, hl]
  refine ⟨⟨rfl, rfl, rfl, rfl, rfl, ?_, ?_, ?_⟩,
          ⟨rfl, rfl, rfl, rfl, rfl, rfl, rfl, rfl, ?_, ?_, ?_⟩,
          ⟨rfl, rfl, rfl, rfl, rfl, rfl, rfl, ?_, ?_, ?_⟩,
          ⟨rfl, rfl, rfl, rfl, rfl, rfl, rfl, rfl, ?_, ?_, ?_⟩⟩
  · exact setComponentStateLoop_eq c s.Status.Components
  · exact hlen s.Status.Components
  · intro hl
    show { s with Status := { s.Status with
        Components := setComponentStateLoop c s.Status.Components } } = s
    rw [hnone _ hl]
  · exact setComponentStateLoop_eq c lb.Status.Components
  · exact hlen lb.Status.Components
  · intro hl
    show { lb with Status := { lb.Status with
        Components := setComponentStateLoop c lb.Status.Components } } = lb
    rw [hnone _ hl]
  · exact setComponentStateLoop_eq c bp.Status.Components
  · exact hlen bp.Status.Components
  · intro hl
    show { bp with Status := { bp.Status with
        Components := setComponentStateLoop c bp.Status.Components } } = bp
    rw [hnone _ hl]
  · exact setComponentStateLoop_eq c sa.Status.Components
  · exact hlen sa.Status.Components
  · intro hl
    show { sa with Status := { sa.Status with
        Components := setComponentStateLoop c sa.Status.Components } } = sa
    rw [hnone _ hl]

theorem C10_setComponentState_frame_witness :
    (Svi.setComponentState
        { Name := "s1"
          Spec := { Vrf := "v", LogicalBridge := "b", MacAddress := [],
                    GatewayIPs := [], EnableBgp := false, RemoteAs := 0 }
          Status := { SviOperStatus := SviOperStatus.Up
                      Components := [{ Name := "frr", CompStatus := ComponentStatus.Success, Details := "", Timer := 0 },
                                     { Name := "lgm", CompStatus := ComponentStatus.Pending, Details := "", Timer := 0 }] }
          Metadata := ()
          ResourceVersion := "rv1" }
        { Name := "lgm", CompStatus := ComponentStatus.Error, Details := "boom", Timer := 4 }).Status.Components =
      [{ Name := "frr", CompStatus := ComponentStatus.Success, Details := "", Timer := 0 },
       { Name := "lgm", CompStatus := ComponentStatus.Error, Details := "boom", Timer := 4 }] ∧
    Svi.setComponentState
        { Name := "s1"
          Spec := { Vrf := "v", LogicalBridge := "b", MacAddress := [],
                    GatewayIPs := [], EnableBgp := false, RemoteAs := 0 }
          Status := { SviOperStatus := SviOperStatus.Up
                      Components := [{ Name := "frr", CompStatus := ComponentStatus.Success, Details := "", Timer := 0 }] }
          Metadata := ()
          ResourceVersion := "rv1" }
        { Name := "absent", CompStatus := ComponentStatus.Error, Details := "", Timer := 0 } =
      { Name := "s1"
        Spec := { Vrf := "v", LogicalBridge := "b", MacAddress := [],
                  GatewayIPs := [], EnableBgp := false, RemoteAs := 0 }
        Status := { SviOperStatus := SviOperStatus.Up
                    Components := [{ Name := "frr", CompStatus := ComponentStatus.Success, Details := "", Timer := 0 }] }
        Metadata := ()
        ResourceVersion := "rv1" } :=
  ⟨((C10_setComponentState_frame _ emptyLogicalBridge emptyBridgePort
        sampleSa _).1.2.2.2.2.2.1).trans (by rfl),
   (C10_setComponentState_frame _ emptyLogicalBridge emptyBridgePort
        sampleSa _).1.2.2.2.2.2.2.2 (by rfl)⟩

/-- C3: for every domain object (Svi, LogicalBridge, BridgePort, Sa), every
component name and every subscriber list aligned index-wise with the
object's components, prepareObjectsForReplay resets to Pending (with empty
Details) exactly those components whose name equals the given one or whose
status is not Success, leaves all other components unchanged, changes the
operational status from Up to Down and leaves any other operational status
unchanged, assigns the supplied fresh ResourceVersion, leaves every other
field unchanged, and returns exactly the subscribers at the indices of the
reset components, in order. -/
theorem C3_prepareObjectsForReplay_spec
    (s : Svi) (lb : LogicalBridge) (bp : BridgePort) (sa : Sa) (nm : String)
    (ssubs lsubs bsubs asubs : List Subscriber) (fs fl fb fa : String)
    (hs : s.Status.Components.length = ssubs.length)
    (hl : lb.Status.Components.length = lsubs.length)
    (hb : bp.Status.Components.length = bsubs.length)
    (ha : sa.Status.Components.length = asubs.length) :
    ((s.prepareObjectsForReplay nm ssubs fs).1.Status.Components =
       s.Status.Components.map (resetIfNeeded nm) ∧
     (s.prepareObjectsForReplay nm ssubs fs).2 =
       ((s.Status.Components.zip ssubs).filter fun p => needsReplay nm p.1).map Prod.snd ∧
     (s.prepareObjectsForReplay nm ssubs fs).1.Status.SviOperStatus =
       (if s.Status.SviOperStatus = SviOperStatus.Up then SviOperStatus.Down
        else s.Status.SviOperStatus) ∧
     (s.prepareObjectsForReplay nm ssubs fs).1.ResourceVersion = fs ∧
     (s.prepareObjectsForReplay nm ssubs fs).1.Name = s.Name ∧
     (s.prepareObjectsForReplay nm ssubs fs).1.Spec = s.Spec ∧
     (s.prepareObjectsForReplay nm ssubs fs).1.Metadata = s.Metadata) ∧
    ((lb.prepareObjectsForReplay nm lsubs fl).1.Status.Components =
       lb.Status.Components.map (resetIfNeeded nm) ∧
     (lb.prepareObjectsForReplay nm lsubs fl).2 =
       ((lb.Status.Components.zip lsubs).filter fun p => needsReplay nm p.1).map Prod.snd ∧
     (lb.prepareObjectsForReplay nm lsubs fl).1.Status.LBOperStatus =
       (if lb.Status.LBOperStatus = LogicalBridgeOperStatus.Up then LogicalBridgeOperStatus.Down
        else lb.Status.LBOperStatus) ∧
     (lb.prepareObjectsForReplay nm lsubs fl).1.ResourceVersion = fl ∧
     (lb.prepareObjectsForReplay nm lsubs fl).1.Name = lb.Name ∧
     (lb.prepareObjectsForReplay nm lsubs fl).1.Spec = lb.Spec ∧
     (lb.prepareObjectsForReplay nm lsubs fl).1.Metadata = lb.Metadata ∧
     (lb.prepareObjectsForReplay nm lsubs fl).1.Svi = lb.Svi ∧
     (lb.prepareObjectsForReplay nm lsubs fl).1.BridgePorts = lb.BridgePorts ∧
     (lb.prepareObjectsForReplay nm lsubs fl).1.MacTable = lb.MacTable) ∧
    ((bp.prepareObjectsForReplay nm bsubs fb).1.Status.Components =
       bp.Status.Components.map (resetIfNeeded nm) ∧
     (bp.prepareObjectsForReplay nm bsubs fb).2 =
       ((bp.Status.Components.zip bsubs).filter fun p => needsReplay nm p.1).map Prod.snd ∧
     (bp.prepareObjectsForReplay nm bsubs fb).1.Status.BPOperStatus =
       (if bp.Status.BPOperStatus = BridgePortOperStatus.Up then BridgePortOperStatus.Down
        else bp.Status.BPOperStatus) ∧
     (bp.prepareObjectsForReplay nm bsubs fb).1.ResourceVersion = fb ∧
     (bp.prepareObjectsForReplay nm bsubs fb).1.Name = bp.Name ∧
     (bp.prepareObjectsForReplay nm bsubs fb).1.Spec = bp.Spec ∧
     (bp.prepareObjectsForReplay nm bsubs fb).1.Metadata = bp.Metadata ∧
     (bp.prepareObjectsForReplay nm bsubs fb).1.TransparentTrunk = bp.TransparentTrunk ∧
     (bp.prepareObjectsForReplay nm bsubs fb).1.Vlans = bp.Vlans) ∧
    ((sa.prepareObjectsForReplay nm asubs fa).1.Status.Components =
       sa.Status.Components.map (resetIfNeeded nm) ∧
     (sa.prepareObjectsForReplay nm asubs fa).2 =
       ((sa.Status.Components.zip asubs).filter fun p => needsReplay nm p.1).map Prod.snd ∧
     (sa.prepareObjectsForReplay nm asubs fa).1.Status.SaOperStatus =
       (if sa.Status.SaOperStatus = SaOperStatus.Up then SaOperStatus.Down
        else sa.Status.SaOperStatus) ∧
     (sa.prepareObjectsForReplay nm asubs fa).1.ResourceVersion = fa ∧
     (sa.prepareObjectsForReplay nm asubs fa).1.Name = sa.Name ∧
     (sa.prepareObjectsForReplay nm asubs fa).1.Spec = sa.Spec ∧
     (sa.prepareObjectsForReplay nm asubs fa).1.Metadata = sa.Metadata ∧
     (sa.prepareObjectsForReplay nm asubs fa).1.Vrf = sa.Vrf ∧
     (sa.prepareObjectsForReplay nm asubs fa).1.Index = sa.Index ∧
     (sa.prepareObjectsForReplay nm asubs fa).1.OldVersions = sa.OldVersions) := by
  have es := replayComponentsLoop_eq nm s.Status.Components ssubs hs
  have el := replayComponentsLoop_eq nm lb.Status.Components lsubs hl
  have eb := replayComponentsLoop_eq nm bp.Status.Components bsubs hb
  have ea := replayComponentsLoop_eq nm sa.Status.Components asubs ha
  refine ⟨⟨?_, ?_, rfl, rfl, rfl, rfl, rfl⟩,
          ⟨?_, ?_, rfl, rfl, rfl, rfl, rfl, rfl, rfl, rfl⟩,
          ⟨?_, ?_, rfl, rfl, rfl, rfl, rfl, rfl, rfl⟩,
          ⟨?_, ?_, rfl, rfl, rfl, rfl, rfl, rfl, rfl, rfl⟩⟩
  · show (replayComponentsLoop nm s.Status.Components ssubs).1 = _
    rw [es]
  · show (replayComponentsLoop nm s.Status.Components ssubs).2 = _
    rw [es]
  · show (replayComponentsLoop nm lb.Status.Components lsubs).1 = _
    rw [el]
  · show (replayComponentsLoop nm lb.Status.Components lsubs).2 = _
    rw [el]
  · show (replayComponentsLoop nm bp.Status.Components bsubs).1 = _
    rw [eb]
  · show (replayComponentsLoop nm bp.Status.Components bsubs).2 = _
    rw [eb]
  · show (replayComponentsLoop nm sa.Status.Components asubs).1 = _
    rw [ea]
  · show (replayComponentsLoop nm sa.Status.Components asubs).2 = _
    rw [ea]

theorem C3_prepareObjectsForReplay_spec_witness :
    (Svi.prepareObjectsForReplay
        { Name := "s1"
          Spec := { Vrf := "v", LogicalBridge := "b", MacAddress := [],
                    GatewayIPs := [], EnableBgp := false, RemoteAs := 0 }
          Status := { SviOperStatus := SviOperStatus.Up
                      Components :=
                        [{ Name := "frr", CompStatus := ComponentStatus.Success, Details := "d1", Timer := 0 },
                         { Name := "lgm", CompStatus := ComponentStatus.Success, Details := "d2", Timer := 0 },
                         { Name := "lvm", CompStatus := ComponentStatus.Error, Details := "d3", Timer := 4 }] }
          Metadata := ()
          ResourceVersion := "rv1" }
        "frr"
        [{ Name := "frr", Priority := 1 }, { Name := "lgm", Priority := 2 },
         { Name := "lvm", Priority := 3 }]
        "rv2").1.Status.Components =
      [{ Name := "frr", CompStatus := ComponentStatus.Pending, Details := "", Timer := 0 },
       { Name := "lgm", CompStatus := ComponentStatus.Success, Details := "d2", Timer := 0 },
       { Name := "lvm", CompStatus := ComponentStatus.Pending, Details := "", Timer := 0 }] ∧
    (Svi.prepareObjectsForReplay
        { Name := "s1"
          Spec := { Vrf := "v", LogicalBridge := "b", MacAddress := [],
                    GatewayIPs := [], EnableBgp := false, RemoteAs := 0 }
          Status := { SviOperStatus := SviOperStatus.Up
                      Components :=
                        [{ Name := "frr", CompStatus := ComponentStatus.Success, Details := "d1", Timer := 0 },
                         { Name := "lgm", CompStatus := ComponentStatus.Success, Details := "d2", Timer := 0 },
                         { Name := "lvm", CompStatus := ComponentStatus.Error, Details := "d3", Timer := 4 }] }
          Metadata := ()
          ResourceVersion := "rv1" }
        "frr"
        [{ Name := "frr", Priority := 1 }, { Name := "lgm", Priority := 2 },
         { Name := "lvm", Priority := 3 }]
        "rv2").2 =
      [{ Name := "frr", Priority := 1 }, { Name := "lvm", Priority := 3 }] :=
  ⟨((C3_prepareObjectsForReplay_spec _ emptyLogicalBridge emptyBridgePort sampleSa
        "frr" _ [] [] [] "rv2" "x" "x" "x" rfl rfl rfl rfl).1.1).trans (by rfl),
   ((C3_prepareObjectsForReplay_spec _ emptyLogicalBridge emptyBridgePort sampleSa
        "frr" _ [] [] [] "rv2" "x" "x" "x" rfl rfl rfl rfl).1.2.1).trans (by rfl)⟩

/-- C5: every object successfully returned by NewSvi, NewLogicalBridge or
NewBridgePort has operational status Down and a Components list with
exactly one entry per registered subscriber for the kind, in the
subscribers' list order, each entry Pending with empty Details. -/
theorem C5_new_objects_initial
    (subsS subsL subsB : List Subscriber) (fS fL fB : String) (dv : IpNet)
    (iS : PbSvi) (iL : PbLogicalBridge) (iB : PbBridgePort) :
    ((NewSvi subsS fS iS).2 = none →
       (NewSvi subsS fS iS).1.Status.SviOperStatus = SviOperStatus.Down ∧
       (NewSvi subsS fS iS).1.Status.Components = subsS.map pendingComponentFor) ∧
    ((NewLogicalBridge subsL fL dv iL).2 = none →
       (NewLogicalBridge subsL fL dv iL).1.Status.LBOperStatus = LogicalBridgeOperStatus.Down ∧
       (NewLogicalBridge subsL fL dv iL).1.Status.Components = subsL.map pendingComponentFor) ∧
    ((NewBridgePort subsB fB iB).2 = none →
       (NewBridgePort subsB fB iB).1.Status.BPOperStatus = BridgePortOperStatus.Down ∧
       (NewBridgePort subsB fB iB).1.Status.Components = subsB.map pendingComponentFor) := by
  refine ⟨?_, ?_, ?_⟩
  · intro h
    by_cases he : subsS.isEmpty
    · simp [NewSvi, he] at h
    · simp [NewSvi, he]
  · intro h
    by_cases he : subsL.isEmpty
    · simp [NewLogicalBridge, he] at h
    · simp [NewLogicalBridge, he]
  · intro h
    by_cases he : subsB.isEmpty
    · simp [NewBridgePort, he] at h
    · simp [NewBridgePort, he]

theorem C5_new_objects_initial_witness :
    (NewSvi [{ Name := "frr", Priority := 1 }, { Name := "lgm", Priority := 2 }] "v1"
        { Name := "s1"
          Spec := { Vrf := "v", LogicalBridge := "b", MacAddress := [1, 2],
                    GwIpPfxList := [], EnableBgp := true, RemoteAs := 65000 } }).1.Status.SviOperStatus =
      SviOperStatus.Down ∧
    (NewSvi [{ Name := "frr", Priority := 1 }, { Name := "lgm", Priority := 2 }] "v1"
        { Name := "s1"
          Spec := { Vrf := "v", LogicalBridge := "b", MacAddress := [1, 2],
                    GwIpPfxList := [], EnableBgp := true, RemoteAs := 65000 } }).1.Status.Components =
      [{ Name := "frr", CompStatus := ComponentStatus.Pending, Details := "", Timer := 0 },
       { Name := "lgm", CompStatus := ComponentStatus.Pending, Details := "", Timer := 0 }] :=
  by
    have h := (C5_new_objects_initial
        [{ Name := "frr", Priority := 1 }, { Name := "lgm", Priority := 2 }] [] []
        "v1" "x" "x" { IP := 0, MaskLen := 0 }
        { Name := "s1"
          Spec := { Vrf := "v", LogicalBridge := "b", MacAddress := [1, 2],
                    GwIpPfxList := [], EnableBgp := true, RemoteAs := 65000 } }
        { Name := "", Spec := { VlanId := 0, Vni := none, VtepIpPfx := none } }
        { Name := "", Spec := { Ptype := PbBridgePortType.Unspecified,
                                MacAddress := [], LogicalBridges := [] } }).1 rfl
    exact ⟨h.1, h.2.trans (by rfl)⟩

/-- C9: when the event bus has no subscribers registered for the kind, the
constructors NewSvi, NewLogicalBridge and NewBridgePort return an error
together with the empty (zero-valued) object, and consequently no
successfully constructed object ever has an empty component list. -/
theorem C9_constructors_require_subscribers
    (fS fL fB : String) (dv : IpNet)
    (iS : PbSvi) (iL : PbLogicalBridge) (iB : PbBridgePort) :
    ((NewSvi [] fS iS).2.isSome ∧ (NewSvi [] fS iS).1 = emptySvi) ∧
    ((NewLogicalBridge [] fL dv iL).2.isSome ∧
     (NewLogicalBridge [] fL dv iL).1 = emptyLogicalBridge) ∧
    ((NewBridgePort [] fB iB).2.isSome ∧ (NewBridgePort [] fB iB).1 = emptyBridgePort) ∧
    (∀ subs, (NewSvi subs fS iS).2 = none →
       (NewSvi subs fS iS).1.Status.Components ≠ []) ∧
    (∀ subs, (NewLogicalBridge subs fL dv iL).2 = none →
       (NewLogicalBridge subs fL dv iL).1.Status.Components ≠ []) ∧
    (∀ subs, (NewBridgePort subs fB iB).2 = none →
       (NewBridgePort subs fB iB).1.Status.Components ≠ []) := by
  refine ⟨⟨rfl, rfl⟩, ⟨rfl, rfl⟩, ⟨rfl, rfl⟩, ?_, ?_, ?_⟩
  · intro subs h
    cases subs with
    | nil => simp [NewSvi] at h
    | cons a rest => simp [NewSvi]
  · intro subs h
    cases subs with
    | nil => simp [NewLogicalBridge] at h
    | cons a rest => simp [NewLogicalBridge]
  · intro subs h
    cases subs with
    | nil => simp [NewBridgePort] at h
    | cons a rest => simp [NewBridgePort]

theorem C9_constructors_require_subscribers_witness :
    (NewSvi [] "v1"
        { Name := "s1"
          Spec := { Vrf := "v", LogicalBridge := "b", MacAddress := [],
                    GwIpPfxList := [], EnableBgp := false, RemoteAs := 0 } }).1 = emptySvi ∧
    (NewSvi [{ Name := "frr", Priority := 1 }] "v1"
        { Name := "s1"
          Spec := { Vrf := "v", LogicalBridge := "b", MacAddress := [],
                    GwIpPfxList := [], EnableBgp := false, RemoteAs := 0 } }).1.Status.Components ≠ [] :=
  by
    have h := C9_constructors_require_subscribers "v1" "x" "x" { IP := 0, MaskLen := 0 }
        { Name := "s1"
          Spec := { Vrf := "v", LogicalBridge := "b", MacAddress := [],
                    GwIpPfxList := [], EnableBgp := false, RemoteAs := 0 } }
        { Name := "", Spec := { VlanId := 0, Vni := none, VtepIpPfx := none } }
        { Name := "", Spec := { Ptype := PbBridgePortType.Unspecified,
                                MacAddress := [], LogicalBridges := [] } }
    exact ⟨h.1.2, h.2.2.2.1 [{ Name := "frr", Priority := 1 }] rfl⟩

/-- C1: when the derived object name of a CreateVrf request already exists
in the store, CreateVrf returns the already-stored object, not the request
body, and changes nothing (no store write, no task, no version bump); and
two successive CreateVrf calls with the same id leave exactly the state of
the first call and return the object stored by the first call. -/
theorem C1_CreateVrf_idempotent :
    (∀ (sysGen : String) (req : CreateVrfRequest) (st : VrfServerState) (v : PbVrf),
       getVrf (vrfRequestName sysGen req) st = some v →
       CreateVrf true sysGen req st = (st, Except.ok v)) ∧
    (∀ (sysGen : String) (req : CreateVrfRequest) (st : VrfServerState),
       getVrf (vrfRequestName sysGen req) st = none →
       CreateVrf true sysGen req (CreateVrf true sysGen req st).1 =
         ((CreateVrf true sysGen req st).1, (CreateVrf true sysGen req st).2)) := by
  constructor
  · intro sysGen req st v h
    simp [CreateVrf, h]
  · intro sysGen req st h
    have hlk : mapLookup (vrfRequestName sysGen req) st.store = none := by
      have := h
      unfold getVrf at this
      exact Option.map_eq_none.mp this
    have hfirst : CreateVrf true sysGen req st =
        ((createVrf { req.Vrf with Name := vrfRequestName sysGen req } st).1,
         Except.ok { req.Vrf with Name := vrfRequestName sysGen req }) := by
      simp [CreateVrf, h, createVrf]
    have hsecond : getVrf (vrfRequestName sysGen req)
        (createVrf { req.Vrf with Name := vrfRequestName sysGen req } st).1 =
        some { req.Vrf with Name := vrfRequestName sysGen req } := by
      unfold getVrf createVrf
      simp only
      rw [mapLookup_append_of_notfound _ _ _ hlk]
      rfl
    rw [hfirst]
    simp [CreateVrf, hsecond]

theorem C1_CreateVrf_idempotent_witness :
    CreateVrf true "gen"
        { VrfId := "v1", Vrf := { Name := "", Spec := { Vni := some 200, LoopbackIpPfx := none, VtepIpPfx := none } } }
        { store := [("//network.opiproject.org/vrfs/v1",
            { pbObj := { Name := "//network.opiproject.org/vrfs/v1",
                         Spec := { Vni := some 100, LoopbackIpPfx := none, VtepIpPfx := none } },
              version := 1 })]
          tasks := ["//network.opiproject.org/vrfs/v1"]
          nextVersion := 2 } =
      ({ store := [("//network.opiproject.org/vrfs/v1",
            { pbObj := { Name := "//network.opiproject.org/vrfs/v1",
                         Spec := { Vni := some 100, LoopbackIpPfx := none, VtepIpPfx := none } },
              version := 1 })]
         tasks := ["//network.opiproject.org/vrfs/v1"]
         nextVersion := 2 },
       Except.ok { Name := "//network.opiproject.org/vrfs/v1",
                   Spec := { Vni := some 100, LoopbackIpPfx := none, VtepIpPfx := none } }) ∧
    CreateVrf true "gen"
        { VrfId := "v2", Vrf := { Name := "", Spec := { Vni := some 300, LoopbackIpPfx := none, VtepIpPfx := none } } }
        (CreateVrf true "gen"
          { VrfId := "v2", Vrf := { Name := "", Spec := { Vni := some 300, LoopbackIpPfx := none, VtepIpPfx := none } } }
          { store := [], tasks := [], nextVersion := 0 }).1 =
      ((CreateVrf true "gen"
          { VrfId := "v2", Vrf := { Name := "", Spec := { Vni := some 300, LoopbackIpPfx := none, VtepIpPfx := none } } }
          { store := [], tasks := [], nextVersion := 0 }).1,
       (CreateVrf true "gen"
          { VrfId := "v2", Vrf := { Name := "", Spec := { Vni := some 300, LoopbackIpPfx := none, VtepIpPfx := none } } }
          { store := [], tasks := [], nextVersion := 0 }).2) :=
  ⟨C1_CreateVrf_idempotent.1 "gen" _ _ _ (by rfl),
   C1_CreateVrf_idempotent.2 "gen" _ _ (by rfl)⟩

/-- C6: for every UpdateVrf request where applying the update mask to the
stored object yields an object deep-equal to the stored one, UpdateVrf
returns the stored object and leaves the state untouched: no store write,
no ResourceVersion bump, no task enqueued. -/
theorem C6_UpdateVrf_noop (applyMask : List String → PbVrf → PbVrf → PbVrf)
    (req : UpdateVrfRequest) (st : VrfServerState) (v : PbVrf)
    (hstored : getVrf req.Vrf.Name st = some v)
    (hnoop : applyMask req.UpdateMask v req.Vrf = v) :
    UpdateVrf true applyMask req st = (st, Except.ok v) := by
  simp [UpdateVrf, hstored, hnoop]

theorem C6_UpdateVrf_noop_witness :
    UpdateVrf true (fun _ old _ => old)
        { Vrf := { Name := "//network.opiproject.org/vrfs/v1",
                   Spec := { Vni := some 999, LoopbackIpPfx := none, VtepIpPfx := none } }
          UpdateMask := ["spec.vni"]
          AllowMissing := false }
        { store := [("//network.opiproject.org/vrfs/v1",
            { pbObj := { Name := "//network.opiproject.org/vrfs/v1",
                         Spec := { Vni := some 100, LoopbackIpPfx := none, VtepIpPfx := none } },
              version := 1 })]
          tasks := []
          nextVersion := 2 } =
      ({ store := [("//network.opiproject.org/vrfs/v1",
            { pbObj := { Name := "//network.opiproject.org/vrfs/v1",
                         Spec := { Vni := some 100, LoopbackIpPfx := none, VtepIpPfx := none } },
              version := 1 })]
         tasks := []
         nextVersion := 2 },
       Except.ok { Name := "//network.opiproject.org/vrfs/v1",
                   Spec := { Vni := some 100, LoopbackIpPfx := none, VtepIpPfx := none } }) :=
  C6_UpdateVrf_noop (fun _ old _ => old) _ _ _ (by rfl) (by rfl)

/-- C4: when the notification's ResourceVersion differs from the re-fetched
object's ResourceVersion, the frr handlers for vrf and svi perform no
set-up or tear-down work and reply through the kind's status-update entry
point with a component whose status is Error, carrying the notification's
NotificationID. -/
theorem C4_frr_version_mismatch (od : ObjectData) (vrf : Vrf) (svi : Svi)
    (su td su2 td2 : String × Bool)
    (hv : od.ResourceVersion ≠ vrf.ResourceVersion)
    (hs : od.ResourceVersion ≠ svi.ResourceVersion) :
    ((handlevrf od (some vrf) su td).setUpDone = false ∧
     (handlevrf od (some vrf) su td).tearDownDone = false ∧
     (handlevrf od (some vrf) su td).replayChecked = none ∧
     ∃ u, (handlevrf od (some vrf) su td).statusUpdate = some u ∧
       u.comp.CompStatus = ComponentStatus.Error ∧
       u.notificationID = od.NotificationID ∧
       u.name = od.Name) ∧
    ((handlesvi od (some svi) su2 td2).setUpDone = false ∧
     (handlesvi od (some svi) su2 td2).tearDownDone = false ∧
     (handlesvi od (some svi) su2 td2).replayChecked = none ∧
     ∃ u, (handlesvi od (some svi) su2 td2).statusUpdate = some u ∧
       u.comp.CompStatus = ComponentStatus.Error ∧
       u.notificationID = od.NotificationID ∧
       u.name = od.Name) := by
  constructor
  · have e : handlevrf od (some vrf) su td =
        { setUpDone := false, tearDownDone := false
          statusUpdate := some
            { name := od.Name, resourceVersion := od.ResourceVersion
              notificationID := od.NotificationID
              comp := { Name := frrComp, CompStatus := ComponentStatus.Error
                        Details := "FRR: Mismatch in resoruce version " ++ od.ResourceVersion
                          ++ " and vrf resource version " ++ vrf.ResourceVersion
                        Timer := backoffBump 0 } }
          replayChecked := none } := if_pos hv
    rw [e]
    exact ⟨rfl, rfl, rfl, _, rfl, rfl, rfl, rfl⟩
  · have e : handlesvi od (some svi) su2 td2 =
        { setUpDone := false, tearDownDone := false
          statusUpdate := some
            { name := od.Name, resourceVersion := od.ResourceVersion
              notificationID := od.NotificationID
              comp := { Name := frrComp, CompStatus := ComponentStatus.Error
                        Details := "FRR: Mismatch in resoruce version " ++ od.ResourceVersion
                          ++ " and svi resource version " ++ svi.ResourceVersion
                        Timer := backoffBump 0 } }
          replayChecked := none } := if_pos hs
    rw [e]
    exact ⟨rfl, rfl, rfl, _, rfl, rfl, rfl, rfl⟩

theorem C4_frr_version_mismatch_witness :
    (handlevrf { Name := "//network.opiproject.org/vrfs/v1",
                 ResourceVersion := "10", NotificationID := "n7" }
        (some { Name := "//network.opiproject.org/vrfs/v1"
                Spec := { Vni := some 100, LoopbackIP := none, VtepIP := none }
                Status := { VrfOperStatus := VrfOperStatus.Down, Components := [] }
                Metadata := ()
                ResourceVersion := "11" })
        ("", true) ("", true)).setUpDone = false ∧
    (handlevrf { Name := "//network.opiproject.org/vrfs/v1",
                 ResourceVersion := "10", NotificationID := "n7" }
        (some { Name := "//network.opiproject.org/vrfs/v1"
                Spec := { Vni := some 100, LoopbackIP := none, VtepIP := none }
                Status := { VrfOperStatus := VrfOperStatus.Down, Components := [] }
                Metadata := ()
                ResourceVersion := "11" })
        ("", true) ("", true)).tearDownDone = false :=
  by
    have h := C4_frr_version_mismatch
        { Name := "//network.opiproject.org/vrfs/v1",
          ResourceVersion := "10", NotificationID := "n7" }
        { Name := "//network.opiproject.org/vrfs/v1"
          Spec := { Vni := some 100, LoopbackIP := none, VtepIP := none }
          Status := { VrfOperStatus := VrfOperStatus.Down, Components := [] }
          Metadata := ()
          ResourceVersion := "11" }
        emptySvi ("", true) ("", true) ("", true) ("", true)
        (by decide) (by decide)
    exact ⟨h.1.1, h.1.2.1⟩

/-- C2: on the main path of the frr handler for one object, every
consecutive Error result sets the component Timer to 2 seconds when it was
previously 0 and to twice its previous value otherwise, so that starting
from a zero timer the n-th consecutive error yields 2 to the n seconds (the
sequence 2, 4, 8, ...); every Success result resets the Timer to 0; the
handler invokes CheckReplayThreshold with the 64-second replayThreshold,
and CheckReplayThreshold triggers replay exactly when the Timer has reached
64 seconds. -/
theorem C2_frr_backoff :
    (∀ (d : String) (c : Component), c.Timer = 0 →
       ∀ n, 1 ≤ n → (frrErrIter d n c).Timer = 2 ^ n) ∧
    (∀ (c : Component) (d : String),
       (frrResultComp c d true).Timer = 0 ∧
       (frrResultComp c d true).CompStatus = ComponentStatus.Success) ∧
    (∀ (c : Component) (d : String),
       (frrResultComp c d false).Timer = (if c.Timer = 0 then 2 else c.Timer * 2) ∧
       (frrResultComp c d false).CompStatus = ComponentStatus.Error) ∧
    replayThreshold = 64 ∧
    (∀ (od : ObjectData) (vrf : Vrf) (su td : String × Bool),
       od.ResourceVersion = vrf.ResourceVersion →
       (handlevrf od (some vrf) su td).replayChecked = some replayThreshold) ∧
    (∀ c : Component,
       Component.CheckReplayThreshold c replayThreshold = true ↔ 64 ≤ c.Timer) := by
  refine ⟨?_, ?_, ?_, rfl, ?_, ?_⟩
  · intro d c h0 n hn
    induction n with
    | zero => omega
    | succ m ih =>
        cases Nat.eq_zero_or_pos m with
        | inl hm =>
            subst hm
            simp [frrErrIter, frrResultComp, backoffBump, h0]
        | inr hm =>
            have ht : (frrErrIter d m c).Timer = 2 ^ m := ih hm
            have hne : (frrErrIter d m c).Timer ≠ 0 := by
              rw [ht]
              positivity
            show (frrResultComp (frrErrIter d m c) d false).Timer = 2 ^ (m + 1)
            unfold frrResultComp backoffBump
            rw [if_neg (by simp : ¬ (false = true))]
            show (if (frrErrIter d m c).Timer = 0 then 2
                  else (frrErrIter d m c).Timer * 2) = 2 ^ (m + 1)
            rw [if_neg hne, ht, pow_succ]
  · intro c d
    exact ⟨rfl, rfl⟩
  · intro c d
    constructor
    · simp [frrResultComp, backoffBump]
    · rfl
  · intro od vrf su td h
    have hcond : ¬ od.ResourceVersion ≠ vrf.ResourceVersion := by
      simpa using h
    simp only [handlevrf, if_neg hcond]
    by_cases hop : vrf.Status.VrfOperStatus ≠ VrfOperStatus.ToBeDeleted
    · simp [hop]
    · simp [hop]
  · intro c
    simp [Component.CheckReplayThreshold, replayThreshold]

theorem C2_frr_backoff_witness :
    (frrErrIter "oops" 6
        { Name := "frr", CompStatus := ComponentStatus.Pending, Details := "", Timer := 0 }).Timer =
      2 ^ 6 ∧
    (handlevrf { Name := "//network.opiproject.org/vrfs/v1",
                 ResourceVersion := "7", NotificationID := "n1" }
        (some { Name := "//network.opiproject.org/vrfs/v1"
                Spec := { Vni := some 100, LoopbackIP := none, VtepIP := none }
                Status := { VrfOperStatus := VrfOperStatus.Down, Components := [] }
                Metadata := ()
                ResourceVersion := "7" })
        ("", false) ("", false)).replayChecked = some replayThreshold ∧
    Component.CheckReplayThreshold
        { Name := "frr", CompStatus := ComponentStatus.Error, Details := "", Timer := 64 }
        replayThreshold = true :=
  ⟨C2_frr_backoff.1 "oops"
      { Name := "frr", CompStatus := ComponentStatus.Pending, Details := "", Timer := 0 }
      rfl 6 (by decide),
   C2_frr_backoff.2.2.2.2.1
      { Name := "//network.opiproject.org/vrfs/v1",
        ResourceVersion := "7", NotificationID := "n1" }
      { Name := "//network.opiproject.org/vrfs/v1"
        Spec := { Vni := some 100, LoopbackIP := none, VtepIP := none }
        Status := { VrfOperStatus := VrfOperStatus.Down, Components := [] }
        Metadata := ()
        ResourceVersion := "7" }
      ("", false) ("", false) rfl,
   (C2_frr_backoff.2.2.2.2.2
      { Name := "frr", CompStatus := ComponentStatus.Error, Details := "", Timer := 64 }).mpr
      (by decide)⟩

/-- C7: AddSvi errors exactly when the bridge already holds a non-empty Svi
reference and otherwise installs the given name; AddBridgePort errors
exactly when the port name is already referenced or the mac is already in
the mac table, and otherwise adds both entries; and the key-uniqueness
invariants of BridgePorts and MacTable are preserved by AddSvi, DeleteSvi,
AddBridgePort and DeleteBridgePort (the single Svi string field itself
enforces at most one SVI per bridge). -/
theorem C7_logical_bridge_invariants (lb : LogicalBridge) (s nm mac : String) :
    ((lb.AddSvi s).2.isSome ↔ lb.Svi ≠ "") ∧
    (lb.Svi = "" → lb.AddSvi s = ({ lb with Svi := s }, none)) ∧
    ((lb.AddBridgePort nm mac).2.isSome ↔
       (mapHasKey nm lb.BridgePorts = true ∨ mapHasKey mac lb.MacTable = true)) ∧
    (mapHasKey nm lb.BridgePorts = false → mapHasKey mac lb.MacTable = false →
       lb.AddBridgePort nm mac =
         ({ lb with BridgePorts := lb.BridgePorts ++ [(nm, false)]
                    MacTable := lb.MacTable ++ [(mac, nm)] }, none)) ∧
    (lbKeysNodup lb →
       lbKeysNodup (lb.AddSvi s).1 ∧ lbKeysNodup (lb.DeleteSvi s).1 ∧
       lbKeysNodup (lb.AddBridgePort nm mac).1 ∧
       lbKeysNodup (lb.DeleteBridgePort nm mac).1) := by
  refine ⟨?_, ?_, ?_, ?_, ?_⟩
  · by_cases h : lb.Svi = ""
    · simp [LogicalBridge.AddSvi, h]
    · simp [LogicalBridge.AddSvi, h]
  · intro h
    simp [LogicalBridge.AddSvi, h]
  · by_cases h1 : mapHasKey nm lb.BridgePorts
    · simp [LogicalBridge.AddBridgePort, h1]
    · by_cases h2 : mapHasKey mac lb.MacTable
      · simp [LogicalBridge.AddBridgePort, h1, h2]
      · simp [LogicalBridge.AddBridgePort, h1, h2]
  · intro h1 h2
    simp [LogicalBridge.AddBridgePort, h1, h2, mapInsert]
  · intro hinv
    refine ⟨?_, ?_, ?_, ?_⟩
    · by_cases h : lb.Svi = ""
      · simpa [LogicalBridge.AddSvi, h, lbKeysNodup] using hinv
      · simpa [LogicalBridge.AddSvi, h, lbKeysNodup] using hinv
    · by_cases h : lb.Svi = s
      · simpa [LogicalBridge.DeleteSvi, h, lbKeysNodup] using hinv
      · simpa [LogicalBridge.DeleteSvi, h, lbKeysNodup] using hinv
    · by_cases h1 : mapHasKey nm lb.BridgePorts
      · simpa [LogicalBridge.AddBridgePort, h1, lbKeysNodup] using hinv
      · by_cases h2 : mapHasKey mac lb.MacTable
        · simpa [LogicalBridge.AddBridgePort, h1, h2, lbKeysNodup] using hinv
        · have hn1 : nm ∉ lb.BridgePorts.map Prod.fst :=
            (mapHasKey_eq_false_iff nm lb.BridgePorts).mp (by simpa using h1)
          have hn2 : mac ∉ lb.MacTable.map Prod.fst :=
            (mapHasKey_eq_false_iff mac lb.MacTable).mp (by simpa using h2)
          have r1 : ((lb.BridgePorts ++ [(nm, false)]).map Prod.fst).Nodup := by
            rw [List.map_append]
            refine hinv.1.append (List.nodup_singleton nm) ?_
            simpa [List.disjoint_singleton] using hn1
          have r2 : ((lb.MacTable ++ [(mac, nm)]).map Prod.fst).Nodup := by
            rw [List.map_append]
            refine hinv.2.append (List.nodup_singleton mac) ?_
            simpa [List.disjoint_singleton] using hn2
          simp only [LogicalBridge.AddBridgePort, if_neg h1, if_neg h2, mapInsert]
          exact ⟨r1, r2⟩
    · by_cases h1 : mapHasKey nm lb.BridgePorts
      · by_cases h2 : mapHasKey mac lb.MacTable
        · have r1 : ((mapErase nm lb.BridgePorts).map Prod.fst).Nodup :=
            ((mapErase_sublist nm lb.BridgePorts).map Prod.fst).nodup hinv.1
          have r2 : ((mapErase mac lb.MacTable).map Prod.fst).Nodup :=
            ((mapErase_sublist mac lb.MacTable).map Prod.fst).nodup hinv.2
          simp only [LogicalBridge.DeleteBridgePort, h1, h2, not_true, if_neg,
            if_false]
          simp only [lbKeysNodup]
          constructor
          · simpa [h1, h2] using r1
          · simpa [h1, h2] using r2
        · simpa [LogicalBridge.DeleteBridgePort, h1, h2, lbKeysNodup] using hinv
      · simpa [LogicalBridge.DeleteBridgePort, h1, lbKeysNodup] using hinv

theorem C7_logical_bridge_invariants_witness :
    LogicalBridge.AddBridgePort
        { Name := "lb1"
          Spec := { VlanID := 10, Vni := some 7, VtepIP := { IP := 0, MaskLen := 24 } }
          Status := { LBOperStatus := LogicalBridgeOperStatus.Down, Components := [] }
          Metadata := ()
          Svi := ""
          BridgePorts := [("p0", false)]
          MacTable := [("m0", "p0")]
          ResourceVersion := "1" }
        "p1" "m1" =
      ({ Name := "lb1"
         Spec := { VlanID := 10, Vni := some 7, VtepIP := { IP := 0, MaskLen := 24 } }
         Status := { LBOperStatus := LogicalBridgeOperStatus.Down, Components := [] }
         Metadata := ()
         Svi := ""
         BridgePorts := [("p0", false), ("p1", false)]
         MacTable := [("m0", "p0"), ("m1", "p1")]
         ResourceVersion := "1" }, none) ∧
    lbKeysNodup
      (LogicalBridge.AddBridgePort
        { Name := "lb1"
          Spec := { VlanID := 10, Vni := some 7, VtepIP := { IP := 0, MaskLen := 24 } }
          Status := { LBOperStatus := LogicalBridgeOperStatus.Down, Components := [] }
          Metadata := ()
          Svi := ""
          BridgePorts := [("p0", false)]
          MacTable := [("m0", "p0")]
          ResourceVersion := "1" }
        "p1" "m1").1 :=
  ⟨((C7_logical_bridge_invariants
      { Name := "lb1"
        Spec := { VlanID := 10, Vni := some 7, VtepIP := { IP := 0, MaskLen := 24 } }
        Status := { LBOperStatus := LogicalBridgeOperStatus.Down, Components := [] }
        Metadata := ()
        Svi := ""
        BridgePorts := [("p0", false)]
        MacTable := [("m0", "p0")]
        ResourceVersion := "1" }
      "s" "p1" "m1").2.2.2.1 (by rfl) (by rfl)).trans (by rfl),
   ((C7_logical_bridge_invariants
      { Name := "lb1"
        Spec := { VlanID := 10, Vni := some 7, VtepIP := { IP := 0, MaskLen := 24 } }
        Status := { LBOperStatus := LogicalBridgeOperStatus.Down, Components := [] }
        Metadata := ()
        Svi := ""
        BridgePorts := [("p0", false)]
        MacTable := [("m0", "p0")]
        ResourceVersion := "1" }
      "s" "p1" "m1").2.2.2.2 (by constructor <;> decide)).2.2.1⟩

/-- C8 counterexample: an SVI spec whose RemoteAs is 0, hence outside the
range 1..65535, with the external resource-name and MAC validators
accepting, is accepted by validateSviSpec instead of being rejected with
InvalidArgument, so the claim as stated is false. -/
theorem C8_remoteAs_counterexample :
    validateSviSpec (fun _ => true) (fun _ => true)
      { Name := "//network.opiproject.org/svis/s1"
        Spec := { Vrf := "//network.opiproject.org/vrfs/blue"
                  LogicalBridge := "//network.opiproject.org/bridges/lb1"
                  MacAddress := [0, 17, 34, 51, 68, 85]
                  GwIpPfxList := [], EnableBgp := true, RemoteAs := 0 } } = none ∧
    ¬ (1 ≤ (0 : Nat) ∧ (0 : Nat) ≤ 65535) :=
  ⟨rfl, by decide⟩

/-- C8 (amended): with the external resource-name and MAC validators
accepting, validateSviSpec returns an InvalidArgument error exactly for the
specs whose RemoteAs exceeds 65535; every spec with RemoteAs at most 65535
(including 0, which lies outside 1..65535) is accepted. -/
theorem C8_remoteAs_amended (nv : String → Bool) (mv : List Nat → Bool) (svi : PbSvi)
    (hlb : nv svi.Spec.LogicalBridge = true) (hvrf : nv svi.Spec.Vrf = true)
    (hmac : mv svi.Spec.MacAddress = true) :
    validateSviSpec nv mv svi =
      (if 65535 < svi.Spec.RemoteAs then some SviSpecErr.invalidRemoteAs else none) := by
  simp [validateSviSpec, hlb, hvrf, hmac]

theorem C8_remoteAs_amended_witness :
    validateSviSpec (fun _ => true) (fun _ => true)
      { Name := "//network.opiproject.org/svis/s1"
        Spec := { Vrf := "//network.opiproject.org/vrfs/blue"
                  LogicalBridge := "//network.opiproject.org/bridges/lb1"
                  MacAddress := [0, 17, 34, 51, 68, 85]
                  GwIpPfxList := [], EnableBgp := true, RemoteAs := 70000 } } =
      some SviSpecErr.invalidRemoteAs := by
  rw [C8_remoteAs_amended (fun _ => true) (fun _ => true) _ rfl rfl rfl]
  norm_num
